import Mathlib

/-!
# Verification of the calculator client-server repository

Shallow embedding of `server.py` (classes `CalculationEngine` and
`CalculatorServer`) and `client.py` (class `NetworkClient`).

Modelling choices:
* Python numbers are modelled by `ℚ` (the spec explicitly allows "exact
  decimal semantics" in place of IEEE-754 doubles).
* Decoded JSON values are modelled by the inductive `JVal`.
* A Python function that may raise is modelled as returning
  `Except PyErr _`; a `try/except` block is the corresponding `match`.
* The per-connection loop of `CalculatorServer._handle_client` is modelled
  as a function over a finite script of transport events (`NetEvent`).
-/

/-- A decoded JSON value, as produced by `json.loads` (objects are kept
only where the code inspects them, see `Payload`). -/
inductive JVal where
  | num (q : ℚ)
  | str (s : String)
  | bool (b : Bool)
  | null
  | arr (elems : List JVal)

/-- The numeric value placed in the `result` field of a success response:
`CalculationEngine.calculate` stores either a Python `int` (after
`result = int(result)`) or a Python `float` (after `round(result, 10)`). -/
inductive NumVal where
  | int (n : ℤ)
  | float (q : ℚ)
deriving DecidableEq

/-- The response dictionary built by the server: either
`{"status": "success", "result": r}` or `{"status": "error", "message": m}`. -/
inductive Response where
  | success (result : NumVal)
  | failure (message : String)
deriving DecidableEq

/-- The value of the `status` field of the encoded response dictionary. -/
def Response.statusOf : Response → String
  | .success _ => "success"
  | .failure _ => "error"

/-- Python exceptions that can be raised inside `CalculationEngine.calculate`
(`ValueError` from `float(...)` or `divide`, `TypeError` from `len(...)` or
`float(...)` on a non-convertible value). -/
inductive PyErr where
  | valueError (msg : String)
  | typeError (msg : String)
deriving DecidableEq

/-- `str(e)` for a modelled Python exception. -/
def PyErr.msg : PyErr → String
  | .valueError m => m
  | .typeError m => m

/-- Python type name of a decoded JSON value (used only inside modelled
exception messages; JSON ints and floats are merged into `num`, reported
as `float`). -/
def JVal.typeName : JVal → String
  | .num _ => "float"
  | .str _ => "str"
  | .bool _ => "bool"
  | .null => "NoneType"
  | .arr _ => "list"

/-- `len(v)` in Python: defined for lists and strings, a `TypeError`
otherwise. -/
def pyLen (v : JVal) : Except PyErr Nat :=
  match v with
  | .arr l => .ok l.length
  | .str s => .ok s.length
  | v => .error (.typeError ("object of type '" ++ v.typeName ++ "' has no len()"))

/-- Digits of a decimal literal read as a natural number. -/
def natOfDigits (cs : List Char) : Nat :=
  cs.foldl (fun n c => 10 * n + (c.toNat - 48)) 0

/-- Surrounding whitespace removal, as `float` applies to its string
argument. -/
def stripSpaces (cs : List Char) : List Char :=
  ((cs.dropWhile Char.isWhitespace).reverse.dropWhile Char.isWhitespace).reverse

/-- Models Python `float(s)` on a string: strips surrounding whitespace and
parses an optionally signed plain decimal literal (`"12"`, `"-3.5"`,
`"+.25"`, `"7."`). Exponent forms, `inf`/`nan` and underscore separators
are not modelled; no claim depends on them. Returns `none` when the string
is not a decimal literal, which is where `float` raises `ValueError`. -/
def parseDecimal (s : String) : Option ℚ :=
  let cs := stripSpaces s.toList
  let signBody : ℚ × List Char :=
    match cs with
    | '+' :: rest => (1, rest)
    | '-' :: rest => (-1, rest)
    | _ => (1, cs)
  let intPart := signBody.2.takeWhile (fun c => c != '.')
  let rest := signBody.2.dropWhile (fun c => c != '.')
  let fracPart : Option (List Char) :=
    match rest with
    | [] => some []
    | _ :: after => if after.contains '.' then none else some after
  match fracPart with
  | none => none
  | some f =>
    if intPart.all Char.isDigit && f.all Char.isDigit &&
        (!intPart.isEmpty || !f.isEmpty) then
      some (signBody.1 * ((natOfDigits intPart : ℚ) +
        (natOfDigits f : ℚ) / (10 ^ f.length)))
    else none

/-- Models Python `float(v)` on a decoded JSON value: numbers pass through,
booleans become 0/1, decimal strings are parsed, everything else raises. -/
def pyFloat (v : JVal) : Except PyErr ℚ :=
  match v with
  | .num q => .ok q
  | .bool b => .ok (if b then 1 else 0)
  | .str s =>
    match parseDecimal s with
    | some q => .ok q
    | none => .error (.valueError ("could not convert string to float: '" ++ s ++ "'"))
  | v => .error (.typeError ("float() argument must be a string or a number, not '"
      ++ v.typeName ++ "'"))

/-- `args[i]` for a value already known to be sized (`pyLen` succeeded):
indexing a list yields the element, indexing a string yields a one-character
string. The fallback is unreachable in `calculate`. -/
def jElem (v : JVal) (i : Nat) : JVal :=
  match v with
  | .arr l => l.getD i .null
  | .str s => .str (String.mk [s.toList.getD i ' '])
  | _ => .null

/-- Models the f-string rendering `f"{operation}"` used in the
unknown-operation message; only the string case is exercised by the claims,
the other renderings are best-effort. -/
def pyStr : JVal → String
  | .str s => s
  | .bool b => if b then "True" else "False"
  | .null => "None"
  | .num q => toString q
  | .arr _ => "[...]"

namespace CalculationEngine

/-- `CalculationEngine.add`: `return a + b`. -/
def add (a b : ℚ) : ℚ := a + b

/-- `CalculationEngine.subtract`: `return a - b`. -/
def subtract (a b : ℚ) : ℚ := a - b

/-- `CalculationEngine.multiply`: `return a * b`. -/
def multiply (a b : ℚ) : ℚ := a * b

/-- `CalculationEngine.divide`: raises `ValueError` when `b == 0`, else
`return a / b`. -/
def divide (a b : ℚ) : Except PyErr ℚ :=
  if b = 0 then .error (.valueError "Pembagian dengan nol tidak diperbolehkan!")
  else .ok (a / b)

/-- The four bound methods stored in `operations_map`. -/
inductive Op where
  | add
  | sub
  | mul
  | div
deriving DecidableEq

/-- The `operations_map` dictionary of `calculate`. -/
def operationsMap : List (String × Op) :=
  [("add", Op.add), ("sub", Op.sub), ("mul", Op.mul), ("div", Op.div)]

/-- `operation not in operations_map`: a decoded value is found in the map
exactly when it is one of the four key strings. -/
def opLookup : JVal → Option Op
  | .str s => operationsMap.lookup s
  | _ => none

/-- `operations_map[operation](a, b)`. -/
def applyOp : Op → ℚ → ℚ → Except PyErr ℚ
  | .add, a, b => .ok (add a b)
  | .sub, a, b => .ok (subtract a b)
  | .mul, a, b => .ok (multiply a b)
  | .div, a, b => divide a b

/-- Round-half-to-even of a rational to an integer, the rounding mode of
Python's `round`. -/
def roundHalfEven (q : ℚ) : ℤ :=
  let f := ⌊q⌋
  let r := q - (f : ℚ)
  if r < 1 / 2 then f
  else if 1 / 2 < r then f + 1
  else if 2 ∣ f then f else f + 1

/-- `round(result, 10)`: round-half-even at the tenth decimal place. -/
def pyRound10 (q : ℚ) : ℚ := (roundHalfEven (q * 10 ^ 10) : ℚ) / 10 ^ 10

/-- The result-normalisation step of `calculate`:
`if result == int(result): result = int(result) else: result = round(result, 10)`.
A rational equals its own integer truncation exactly when its denominator
is 1. -/
def formatResult (result : ℚ) : NumVal :=
  if result.den = 1 then .int result.num else .float (pyRound10 result)

/-- The body of the `try` block of `CalculationEngine.calculate`: argument
count validation, `float` conversion of both arguments, operation lookup,
dispatch and result normalisation. Raised exceptions propagate as
`Except.error`. -/
def calculateBody (operation : JVal) (args : JVal) : Except PyErr Response :=
  match pyLen args with
  | .error e => .error e
  | .ok n =>
    if n ≠ 2 then .ok (.failure "Diperlukan tepat 2 argumen!")
    else
      match pyFloat (jElem args 0) with
      | .error e => .error e
      | .ok a =>
        match pyFloat (jElem args 1) with
        | .error e => .error e
        | .ok b =>
          match opLookup operation with
          | none => .ok (.failure ("Operasi '" ++ pyStr operation ++ "' tidak dikenal!"))
          | some op =>
            match applyOp op a b with
            | .error e => .error e
            | .ok result => .ok (.success (formatResult result))

/-- The message of the failure dictionary built by the `except` clauses of
`calculate`: `except ValueError` returns `str(e)`, the catch-all
`except Exception` prefixes `"Terjadi kesalahan: "`. -/
def excMessage : PyErr → String
  | .valueError m => m
  | .typeError m => "Terjadi kesalahan: " ++ m

/-- `CalculationEngine.calculate`: the `try` body with every raised
exception converted to an error dictionary. -/
def calculate (operation : JVal) (args : JVal) : Response :=
  match calculateBody operation args with
  | .ok r => r
  | .error e => .failure (excMessage e)

/-- The exact mathematical outcome of an operation code, in the words of the
spec (for comparison with what `calculate` returns). -/
def mathOutcome (op : String) (a b : ℚ) : ℚ :=
  if op = "add" then a + b
  else if op = "sub" then a - b
  else if op = "mul" then a * b
  else a / b

end CalculationEngine

namespace CalculatorServer

/-- Classification of one received chunk of bytes, as seen by the body of
the `while` loop of `_handle_client` after `data.decode("utf-8")` and
`json.loads` run on it. -/
inductive Payload where
  /-- Bytes that are not valid UTF-8: `decode` raises `UnicodeDecodeError`,
  which the inner `try` (it only catches `json.JSONDecodeError`) does not
  intercept. -/
  | notUtf8
  /-- A string rejected by `json.loads` (raises `json.JSONDecodeError`). -/
  | notJson (raw : String)
  /-- Valid JSON whose top level is not an object: `request.get` then
  raises `AttributeError`, which the inner `try` does not intercept. -/
  | jsonNonObject (v : JVal)
  /-- Valid JSON object; `fields` are its key/value pairs. -/
  | jsonObject (fields : List (String × JVal))

/-- Processing of one received payload by `_handle_client`, up to the
response to be sent: `Except.error` means an exception escaped to the outer
`try`, so the session is torn down without a response. On a JSON object the
handler reads `request.get("operation", "")` and `request.get("args", [])`
and dispatches to `CalculationEngine.calculate`. -/
def handlePayload : Payload → Except Unit Response
  | .notUtf8 => .error ()
  | .notJson _ => .ok (.failure "Format request tidak valid (bukan JSON)!")
  | .jsonNonObject _ => .error ()
  | .jsonObject fields =>
    .ok (CalculationEngine.calculate
      ((fields.lookup "operation").getD (JVal.str ""))
      ((fields.lookup "args").getD (JVal.arr [])))

/-- One transport event offered to the session loop. -/
inductive NetEvent where
  /-- `recv` returned a non-empty chunk classified as `p`; `sendOk` tells
  whether the later `send` of the response would succeed. -/
  | recv (p : Payload) (sendOk : Bool)
  /-- `recv` returned zero bytes: the peer performed an orderly shutdown. -/
  | eofRecv
  /-- `recv` raised (`ConnectionResetError` or another `OSError`). -/
  | errRecv

/-- How the session ended. In both cases the `finally` block has run, so
the client socket is closed and the connection released. -/
inductive SessionClose where
  /-- `break` on a zero-byte read, then `finally`. -/
  | orderly
  /-- An exception reached the outer `except` clauses, then `finally`. -/
  | faulted
deriving DecidableEq

/-- The `while True` loop of `_handle_client`, run against a finite script
of transport events. Returns the responses actually written to the socket,
in order, and `some close` when the session terminated during the script
(`none`: the script ran out with the session still open, blocked on the
next `recv`). A failed `send` aborts the session and the response being
sent is not counted as written. -/
def runSession : List NetEvent → List Response × Option SessionClose
  | [] => ([], none)
  | NetEvent.eofRecv :: _ => ([], some SessionClose.orderly)
  | NetEvent.errRecv :: _ => ([], some SessionClose.faulted)
  | NetEvent.recv p sendOk :: rest =>
    match handlePayload p with
    | .error _ => ([], some SessionClose.faulted)
    | .ok resp =>
      if sendOk then (resp :: (runSession rest).1, (runSession rest).2)
      else ([], some SessionClose.faulted)

/-- A transport event on which the session loop reads a request, handles it
without an escaping exception, and writes the response successfully. -/
def isGoodRecv : NetEvent → Bool
  | .recv p true =>
    match handlePayload p with
    | .ok _ => true
    | .error _ => false
  | _ => false

/-- The response produced for an event (junk default on events that
produce none; only quoted under `isGoodRecv`). -/
def respOf : NetEvent → Response
  | .recv p _ =>
    match handlePayload p with
    | .ok r => r
    | .error _ => .failure ""
  | _ => .failure ""

/-- Whether handling the payload completes without an escaping exception. -/
def payloadHandled (p : Payload) : Bool :=
  match handlePayload p with
  | .ok _ => true
  | .error _ => false

/-- Payload classified as non-JSON. -/
def isNotJsonPayload : Payload → Bool
  | .notJson _ => true
  | _ => false

/-- Payload classified as a JSON object. -/
def isObjectPayload : Payload → Bool
  | .jsonObject _ => true
  | _ => false

end CalculatorServer

namespace NetworkClient

/-- The exception raised inside the `try` block of `send_calculation`
(around `send`, `recv` and `json.loads` of the reply). -/
inductive TransportFault where
  | timeout
  | reset
  | other (msg : String)
deriving DecidableEq

/-- Outcome of the send/receive exchange attempted by `send_calculation`. -/
inductive WireOutcome where
  /-- The request was sent and a reply was received and parsed to `resp`. -/
  | delivered (resp : Response)
  /-- Some step raised `f`. -/
  | fault (f : TransportFault)

/-- The message of the local failure dictionary synthesized by the
`except` clauses of `send_calculation`. -/
def clientFaultMsg : TransportFault → String
  | .timeout => "Timeout menunggu response dari server!"
  | .reset => "Koneksi ke server terputus!"
  | .other m => "Terjadi kesalahan: " ++ m

/-- The client connection state: the `is_connected` attribute. -/
structure Client where
  is_connected : Bool
deriving DecidableEq

/-- `NetworkClient.send_calculation`: if not connected, tries `connect`
(whose success is the environment input `connectOk`) and on failure
returns a local failure without touching the wire; otherwise performs the
exchange, and on any raised fault sets `is_connected = False` and returns
the synthesized local failure dictionary. Returns the updated state and
the response dictionary handed back to the caller. -/
def send_calculation (c : Client) (connectOk : Bool) (w : WireOutcome) :
    Client × Response :=
  if !c.is_connected && !connectOk then
    (c, .failure "Tidak dapat terhubung ke server!\nPastikan server sudah berjalan.")
  else
    match w with
    | .delivered r => ({ is_connected := true }, r)
    | .fault f => ({ is_connected := false }, .failure (clientFaultMsg f))

end NetworkClient

/-- Whether `needle` occurs as a contiguous substring of `hay` (used to
state that a failure message does or does not name an operation). -/
def containsSub (needle hay : String) : Bool :=
  (List.range (hay.toList.length + 1)).any
    (fun i => needle.toList.isPrefixOf (hay.toList.drop i))

namespace CalculationEngine

/-- Rounding at the tenth decimal place yields a value with at most ten
decimal digits: multiplied by `10 ^ 10` it is an integer. -/
theorem pyRound10_den (q : ℚ) : (pyRound10 q * 10 ^ 10).den = 1 := by
  have h10 : (10 : ℚ) ^ 10 ≠ 0 := by norm_num
  rw [pyRound10, div_mul_cancel₀ _ h10]
  exact Rat.den_intCast _

/-- Lookup of the `"add"` key in `operations_map`. -/
theorem opLookup_str_add : opLookup (JVal.str "add") = some Op.add := rfl

/-- Lookup of the `"sub"` key in `operations_map`. -/
theorem opLookup_str_sub : opLookup (JVal.str "sub") = some Op.sub := rfl

/-- Lookup of the `"mul"` key in `operations_map`. -/
theorem opLookup_str_mul : opLookup (JVal.str "mul") = some Op.mul := rfl

/-- Lookup of the `"div"` key in `operations_map`. -/
theorem opLookup_str_div : opLookup (JVal.str "div") = some Op.div := rfl

/-- When the decoded operation is not a key of `operations_map`,
`calculate` returns some failure dictionary (which failure depends on how
far argument processing got). -/
theorem calculate_not_in_map (opv : JVal) (args : JVal)
    (h : opLookup opv = none) :
    ∃ m, calculate opv args = Response.failure m := by
  cases hl : pyLen args with
  | error e => exact ⟨excMessage e, by simp [calculate, calculateBody, hl]⟩
  | ok n =>
    by_cases hn : n = 2
    · subst hn
      cases hf0 : pyFloat (jElem args 0) with
      | error e => exact ⟨excMessage e, by simp [calculate, calculateBody, hl, hf0]⟩
      | ok a =>
        cases hf1 : pyFloat (jElem args 1) with
        | error e =>
          exact ⟨excMessage e, by simp [calculate, calculateBody, hl, hf0, hf1]⟩
        | ok b =>
          exact ⟨"Operasi '" ++ pyStr opv ++ "' tidak dikenal!",
            by simp [calculate, calculateBody, hl, hf0, hf1, h]⟩
    · exact ⟨"Diperlukan tepat 2 argumen!",
        by simp [calculate, calculateBody, hl, hn]⟩

/-- An empty argument list always trips the arity check, whatever the
operation value is. -/
theorem calculate_empty_args (opv : JVal) :
    calculate opv (JVal.arr []) = Response.failure "Diperlukan tepat 2 argumen!" := by
  simp [calculate, calculateBody, pyLen]

/-- Claim C1: for each of the four recognized operation codes applied to two
numbers (second nonzero for `div`), `calculate` returns `Success` whose
result is the exact mathematical outcome — as an integer when that value is
integral, else rounded half-to-even at the tenth decimal place — and the
rounded value indeed has at most 10 decimal digits. -/
theorem calculate_valid_request (op : String) (a b : ℚ)
    (hop : op = "add" ∨ op = "sub" ∨ op = "mul" ∨ op = "div")
    (hdiv : op = "div" → b ≠ 0) :
    calculate (JVal.str op) (JVal.arr [JVal.num a, JVal.num b]) =
      Response.success (if (mathOutcome op a b).den = 1
        then NumVal.int (mathOutcome op a b).num
        else NumVal.float (pyRound10 (mathOutcome op a b))) ∧
    (pyRound10 (mathOutcome op a b) * 10 ^ 10).den = 1 := by
  refine ⟨?_, pyRound10_den _⟩
  rcases hop with h | h | h | h <;> subst h
  · simp [calculate, calculateBody, pyLen, jElem, pyFloat, opLookup_str_add,
      applyOp, add, formatResult, mathOutcome]
  · simp [calculate, calculateBody, pyLen, jElem, pyFloat, opLookup_str_sub,
      applyOp, subtract, formatResult, mathOutcome]
  · simp [calculate, calculateBody, pyLen, jElem, pyFloat, opLookup_str_mul,
      applyOp, multiply, formatResult, mathOutcome]
  · have hb : b ≠ 0 := hdiv rfl
    simp [calculate, calculateBody, pyLen, jElem, pyFloat, opLookup_str_div,
      applyOp, divide, hb, formatResult, mathOutcome]

/-- Witness for C1: `{"operation":"add","args":[2,3]}` yields
`{"status":"success","result":5}` with an integer result. -/
theorem calculate_valid_request_witness :
    calculate (JVal.str "add") (JVal.arr [JVal.num 2, JVal.num 3]) =
      Response.success (NumVal.int 5) := by
  have h := calculate_valid_request "add" 2 3 (Or.inl rfl)
    (fun hd => absurd hd (by decide))
  rw [h.1]
  norm_num [mathOutcome]

/-- Claim C3: dividing any number by zero returns the dedicated
division-by-zero failure (and hence never a `Success`, and no exception
escapes: the `ValueError` raised by `divide` is caught by `calculate`). -/
theorem divide_by_zero_failure (a : ℚ) :
    calculate (JVal.str "div") (JVal.arr [JVal.num a, JVal.num 0]) =
      Response.failure "Pembagian dengan nol tidak diperbolehkan!" := by
  simp [calculate, calculateBody, pyLen, jElem, pyFloat, opLookup_str_div,
    applyOp, divide, excMessage]

/-- Claim C4: any argument list whose length is not 2 yields the
exact-2-arguments failure, for every operation string, recognized or not. -/
theorem wrong_arity_failure (op : String) (args : List JVal)
    (h : args.length ≠ 2) :
    calculate (JVal.str op) (JVal.arr args) =
      Response.failure "Diperlukan tepat 2 argumen!" := by
  simp [calculate, calculateBody, pyLen, h]

/-- Witness for C4: an empty argument list is rejected with the arity
message. -/
theorem wrong_arity_failure_witness :
    calculate (JVal.str "add") (JVal.arr []) =
      Response.failure "Diperlukan tepat 2 argumen!" :=
  wrong_arity_failure "add" [] (by decide)

/-- Counterexample to C5 as stated: with the unrecognized operation
`"foo"` and two arguments, the failure message does not name the
operation — argument conversion runs before the operation check, so a
non-numeric first argument produces the `float` conversion error instead. -/
theorem unknown_op_counterexample :
    calculate (JVal.str "foo") (JVal.arr [JVal.str "abc", JVal.num 3]) =
      Response.failure "could not convert string to float: 'abc'" ∧
    containsSub "foo" "could not convert string to float: 'abc'" = false := by
  constructor
  · rfl
  · decide

/-- Claim C5 (amended): an unrecognized operation given two *numeric*
arguments returns a failure naming the unrecognized operation. -/
theorem unknown_op_failure (op : String) (a b : ℚ)
    (h : ¬(op = "add" ∨ op = "sub" ∨ op = "mul" ∨ op = "div")) :
    calculate (JVal.str op) (JVal.arr [JVal.num a, JVal.num b]) =
      Response.failure ("Operasi '" ++ op ++ "' tidak dikenal!") := by
  push_neg at h
  obtain ⟨h1, h2, h3, h4⟩ := h
  have b1 : (op == "add") = false := by simp [h1]
  have b2 : (op == "sub") = false := by simp [h2]
  have b3 : (op == "mul") = false := by simp [h3]
  have b4 : (op == "div") = false := by simp [h4]
  simp [calculate, calculateBody, pyLen, jElem, pyFloat, opLookup,
    operationsMap, List.lookup, b1, b2, b3, b4, pyStr]

/-- Witness for the amended C5. -/
theorem unknown_op_failure_witness :
    calculate (JVal.str "foo") (JVal.arr [JVal.num 1, JVal.num 2]) =
      Response.failure "Operasi 'foo' tidak dikenal!" := by
  have h := unknown_op_failure "foo" 1 2 (by decide)
  rw [h]
  decide

/-- Claim C9: at its public interface `calculate` is total — on every
operation string and argument list it returns a dictionary whose status is
`"success"` or `"error"`, and whenever the `try` body raises, the exception
is converted into the corresponding failure dictionary. -/
theorem calculate_total_interface :
    (∀ (op : String) (args : List JVal),
        Response.statusOf (calculate (JVal.str op) (JVal.arr args)) = "success" ∨
        Response.statusOf (calculate (JVal.str op) (JVal.arr args)) = "error") ∧
    (∀ (op : String) (args : List JVal) (e : PyErr),
        calculateBody (JVal.str op) (JVal.arr args) = Except.error e →
        calculate (JVal.str op) (JVal.arr args) = Response.failure (excMessage e)) := by
  constructor
  · intro op args
    cases h : calculate (JVal.str op) (JVal.arr args) with
    | success v => exact Or.inl (by simp [Response.statusOf])
    | failure m => exact Or.inr (by simp [Response.statusOf])
  · intro op args e h
    simp [calculate, h]

/-- Witness for C9: the `ValueError` raised on division by zero is
converted into a failure dictionary. -/
theorem calculate_total_interface_witness :
    calculate (JVal.str "div") (JVal.arr [JVal.num 5, JVal.num 0]) =
      Response.failure
        (excMessage (PyErr.valueError "Pembagian dengan nol tidak diperbolehkan!")) :=
  calculate_total_interface.2 "div" [JVal.num 5, JVal.num 0]
    (PyErr.valueError "Pembagian dengan nol tidak diperbolehkan!")
    (by simp [calculateBody, pyLen, jElem, pyFloat, opLookup_str_div,
      applyOp, divide])

end CalculationEngine

namespace CalculatorServer

/-- A good transport event is a successful read of a payload that the
handler processes without an escaping exception, followed by a successful
write; `respOf` then names the written response. -/
theorem isGoodRecv_elim (e : NetEvent) (h : isGoodRecv e = true) :
    ∃ p r, e = NetEvent.recv p true ∧ handlePayload p = Except.ok r ∧
      respOf e = r := by
  cases e with
  | recv p sendOk =>
    cases sendOk with
    | false => simp [isGoodRecv] at h
    | true =>
      cases hp : handlePayload p with
      | error u => simp [isGoodRecv, hp] at h
      | ok r => exact ⟨p, r, rfl, hp, by simp [respOf, hp]⟩
  | eofRecv => simp [isGoodRecv] at h
  | errRecv => simp [isGoodRecv] at h

/-- Claim C2 (counterexample to the claim as stated): a payload that is
valid JSON but not a JSON object (here `[2, 3]`-like, modelled through its
decoded value) is a schema-violating payload, yet the handler sends no
`Failure` and the session closes, so the following well-formed request is
never processed. -/
theorem malformed_json_counterexample :
    runSession [NetEvent.recv (Payload.jsonNonObject (JVal.num 42)) true,
      NetEvent.recv (Payload.jsonObject
        [("operation", JVal.str "add"),
         ("args", JVal.arr [JVal.num 2, JVal.num 3])]) true] =
      ([], some SessionClose.faulted) := rfl

/-- Claim C2 (amended): a payload that is not valid JSON — or any payload
that decodes to a JSON object, schema-violating or not — gets exactly one
response and leaves the session open for the remaining traffic; in the
non-JSON case the response is the fixed invalid-format failure. (A payload
that is valid JSON but not an object, or not valid UTF-8, instead closes
the session without a response.) -/
theorem malformed_payload_keeps_session (p : Payload) (rest : List NetEvent)
    (h : isNotJsonPayload p = true ∨ isObjectPayload p = true) :
    ∃ r, handlePayload p = Except.ok r ∧
      runSession (NetEvent.recv p true :: rest) =
        (r :: (runSession rest).1, (runSession rest).2) ∧
      (isNotJsonPayload p = true →
        r = Response.failure "Format request tidak valid (bukan JSON)!") := by
  cases p with
  | notJson raw =>
    exact ⟨_, rfl, by simp [runSession, handlePayload], fun _ => rfl⟩
  | jsonObject fields =>
    refine ⟨_, rfl, by simp [runSession, handlePayload], ?_⟩
    intro hx
    simp [isNotJsonPayload] at hx
  | notUtf8 => simp [isNotJsonPayload, isObjectPayload] at h
  | jsonNonObject v => simp [isNotJsonPayload, isObjectPayload] at h

/-- Witness for the amended C2: a non-JSON payload is answered with the
invalid-format failure and a following well-formed request still runs. -/
theorem malformed_payload_keeps_session_witness :
    ∃ r, handlePayload (Payload.notJson "not json") = Except.ok r ∧
      runSession (NetEvent.recv (Payload.notJson "not json") true ::
          [NetEvent.recv (Payload.jsonObject
            [("operation", JVal.str "add"),
             ("args", JVal.arr [JVal.num 2, JVal.num 3])]) true]) =
        (r :: (runSession [NetEvent.recv (Payload.jsonObject
            [("operation", JVal.str "add"),
             ("args", JVal.arr [JVal.num 2, JVal.num 3])]) true]).1,
         (runSession [NetEvent.recv (Payload.jsonObject
            [("operation", JVal.str "add"),
             ("args", JVal.arr [JVal.num 2, JVal.num 3])]) true]).2) ∧
      (isNotJsonPayload (Payload.notJson "not json") = true →
        r = Response.failure "Format request tidak valid (bukan JSON)!") :=
  malformed_payload_keeps_session (Payload.notJson "not json") _ (Or.inl rfl)

/-- Claim C6 (counterexample to the claim as stated): a request read
successfully, with a transport that would have carried the response, still
yields no response — the non-object JSON payload raises `AttributeError`
and the session dies before any write. -/
theorem response_per_request_counterexample :
    runSession [NetEvent.recv (Payload.jsonNonObject JVal.null) true] =
      ([], some SessionClose.faulted) := rfl

/-- Claim C6 (amended): within one session, every successfully read request
whose payload is handled without an escaping exception yields exactly one
response, in request order; a successfully read request yields no response
only when the write fails or the payload raises an unhandled decode error,
and in both of those cases the session closes. -/
theorem session_responses_in_order :
    (∀ events : List NetEvent, (∀ e ∈ events, isGoodRecv e = true) →
        runSession events = (events.map respOf, none)) ∧
    (∀ (pre : List NetEvent) (p : Payload) (rest : List NetEvent),
        (∀ e ∈ pre, isGoodRecv e = true) →
        runSession (pre ++ NetEvent.recv p false :: rest) =
          (pre.map respOf, some SessionClose.faulted)) ∧
    (∀ (pre : List NetEvent) (p : Payload) (sendOk : Bool) (rest : List NetEvent),
        (∀ e ∈ pre, isGoodRecv e = true) → payloadHandled p = false →
        runSession (pre ++ NetEvent.recv p sendOk :: rest) =
          (pre.map respOf, some SessionClose.faulted)) := by
  refine ⟨?_, ?_, ?_⟩
  · intro events h
    induction events with
    | nil => rfl
    | cons e rest ih =>
      obtain ⟨p, r, he, hp, hr⟩ := isGoodRecv_elim e (h e (by simp))
      subst he
      have ih' := ih (fun e' he' => h e' (List.mem_cons_of_mem _ he'))
      simp [runSession, hp, ih', respOf, hr]
  · intro pre p rest h
    induction pre with
    | nil =>
      cases hp : handlePayload p with
      | error u => simp [runSession, hp]
      | ok r => simp [runSession, hp]
    | cons e pre ih =>
      obtain ⟨q, r, he, hq, hr⟩ := isGoodRecv_elim e (h e (by simp))
      subst he
      have ih' := ih (fun e' he' => h e' (List.mem_cons_of_mem _ he'))
      simp [runSession, hq, ih', respOf, hr]
  · intro pre p sendOk rest h hph
    induction pre with
    | nil =>
      cases hp : handlePayload p with
      | error u => simp [runSession, hp]
      | ok r => simp [payloadHandled, hp] at hph
    | cons e pre ih =>
      obtain ⟨q, r, he, hq, hr⟩ := isGoodRecv_elim e (h e (by simp))
      subst he
      have ih' := ih (fun e' he' => h e' (List.mem_cons_of_mem _ he'))
      simp [runSession, hq, ih', respOf, hr]

/-- Witness for the amended C6: a two-request script is answered with two
responses in order and the session stays open. -/
theorem session_responses_in_order_witness :
    runSession [NetEvent.recv (Payload.notJson "bad one") true,
      NetEvent.recv (Payload.jsonObject []) true] =
      ([Response.failure "Format request tidak valid (bukan JSON)!",
        Response.failure "Diperlukan tepat 2 argumen!"], none) := by
  have h := session_responses_in_order.1
    [NetEvent.recv (Payload.notJson "bad one") true,
     NetEvent.recv (Payload.jsonObject []) true]
    (by intro e he
        simp only [List.mem_cons, List.mem_singleton] at he
        rcases he with he | he | he
        all_goals first
        | (subst he; rfl)
        | cases he)
  rw [h]
  rfl

/-- Claim C7: a zero-byte read (orderly shutdown by the peer) terminates
the session: the loop breaks, the connection is released, and no response
is sent for that read, whatever traffic came before or would come after. -/
theorem eof_closes_session (pre rest : List NetEvent)
    (h : ∀ e ∈ pre, isGoodRecv e = true) :
    runSession (pre ++ NetEvent.eofRecv :: rest) =
      (pre.map respOf, some SessionClose.orderly) := by
  induction pre with
  | nil => rfl
  | cons e pre ih =>
    obtain ⟨p, r, he, hp, hr⟩ := isGoodRecv_elim e (h e (by simp))
    subst he
    have ih' := ih (fun e' he' => h e' (List.mem_cons_of_mem _ he'))
    simp [runSession, hp, ih', respOf, hr]

/-- Witness for C7: a session whose first read returns zero bytes closes
orderly with no responses. -/
theorem eof_closes_session_witness :
    runSession [NetEvent.eofRecv] = ([], some SessionClose.orderly) := by
  have h := eof_closes_session [] [] (by intro e he; cases he)
  simpa using h

/-- Claim C10: a JSON-object payload lacking the `"operation"` or `"args"`
key is still dispatched to the engine (with `""` respectively `[]`
substituted by `request.get`), is answered with a domain failure from the
engine — the exact-2-arguments message whenever `"args"` is missing — and
the session stays open. -/
theorem missing_keys_engine_failure (fields : List (String × JVal))
    (rest : List NetEvent)
    (h : fields.lookup "operation" = none ∨ fields.lookup "args" = none) :
    ∃ m, handlePayload (Payload.jsonObject fields) =
        Except.ok (Response.failure m) ∧
      (fields.lookup "args" = none → m = "Diperlukan tepat 2 argumen!") ∧
      runSession (NetEvent.recv (Payload.jsonObject fields) true :: rest) =
        (Response.failure m :: (runSession rest).1, (runSession rest).2) := by
  cases hargs : fields.lookup "args" with
  | none =>
    refine ⟨"Diperlukan tepat 2 argumen!", ?_, fun _ => rfl, ?_⟩
    · simp [handlePayload, hargs, CalculationEngine.calculate_empty_args]
    · simp [runSession, handlePayload, hargs,
        CalculationEngine.calculate_empty_args]
  | some argv =>
    have hop : fields.lookup "operation" = none := by
      rcases h with h | h
      · exact h
      · rw [h] at hargs; simp at hargs
    have hnone : CalculationEngine.opLookup (JVal.str "") = none := rfl
    obtain ⟨m, hm⟩ := CalculationEngine.calculate_not_in_map (JVal.str "")
      ((fields.lookup "args").getD (JVal.arr [])) hnone
    refine ⟨m, ?_, ?_, ?_⟩
    · simp [handlePayload, hop, hm]
    · intro hx; simp at hx
    · simp [runSession, handlePayload, hop, hm]

/-- Witness for C10: the empty JSON object `{}` is answered with the
exact-2-arguments failure and the session continues. -/
theorem missing_keys_engine_failure_witness :
    ∃ m, handlePayload (Payload.jsonObject []) =
        Except.ok (Response.failure m) ∧
      (([] : List (String × JVal)).lookup "args" = none →
        m = "Diperlukan tepat 2 argumen!") ∧
      runSession [NetEvent.recv (Payload.jsonObject []) true] =
        (Response.failure m :: (runSession ([] : List NetEvent)).1,
         (runSession ([] : List NetEvent)).2) :=
  missing_keys_engine_failure [] [] (Or.inl rfl)

end CalculatorServer

namespace NetworkClient

/-- Claim C8: whenever the exchange attempted by `send_calculation` raises
a transport fault (timeout, reset, or any other exception), the client
marks the connection broken and hands its caller a locally synthesized
failure dictionary; being a total function of the fault, it propagates no
exception. -/
theorem transport_fault_marks_broken (c : Client) (connectOk : Bool)
    (f : TransportFault) (h : c.is_connected = true ∨ connectOk = true) :
    send_calculation c connectOk (WireOutcome.fault f) =
      ({ is_connected := false }, Response.failure (clientFaultMsg f)) := by
  rcases h with h | h <;> simp [send_calculation, h]

/-- Witness for C8: a timeout on a connected client yields the synthesized
timeout failure and `is_connected = false`. -/
theorem transport_fault_marks_broken_witness :
    send_calculation { is_connected := true } false
        (WireOutcome.fault TransportFault.timeout) =
      ({ is_connected := false },
       Response.failure "Timeout menunggu response dari server!") := by
  have h := transport_fault_marks_broken { is_connected := true } false
    TransportFault.timeout (Or.inl rfl)
  simpa [clientFaultMsg] using h

end NetworkClient
